import Mathlib

/-!
# Verification of the multi-city proximity / accessibility pipeline

Shallow embedding of `notebooks/02-accessibility-analysis-multi-city.ipynb`.
The notebook composes four pure analysis functions (`load_features`,
`build_network`, `proximity_analysis`, `accessibility_analysis`) plus a
`plot` consumer, run either serially, via dask.delayed task graphs, or via
dask bags mapped over a list of cities.

The external collaborators (pandana's routing engine, geopandas' file
reader, dask's task engine) are not part of the repository; where a claim
depends on their behaviour we model them from the spec's contracts
(section 4 and 6 of the spec), and such definitions carry a doc comment
starting `Modelled from the spec:`.  Coordinates and edge weights are
modelled as rationals.
-/

namespace ScalableGIS

/-- A planar point (a geometry centroid): `x`/`y` coordinate columns. -/
structure Pt where
  x : ℚ
  y : ℚ
deriving DecidableEq

/-- A record of the nodes layer: columns `osmid`, `x`, `y`
(`nodes.set_index("osmid", drop=False)` keeps `osmid` as a column). -/
structure Node where
  osmid : ℕ
  x : ℚ
  y : ℚ
deriving DecidableEq

/-- A record of the edges layer: columns `u`, `v`, `length`
(`edges.set_index(["u", "v"], drop=False)` keeps the endpoint columns). -/
structure Edge where
  u : ℕ
  v : ℕ
  length : ℚ
deriving DecidableEq

/-- A record of the buildings layer: its centroid and the (initially
absent) `accessibility` column written by `accessibility_analysis`. -/
structure Building where
  centroid : Pt
  accessibility : Option ℕ
deriving DecidableEq

/-- The error taxonomy of spec section 7: NotFound, FormatError,
ReferentialIntegrityError, LookupError, IOError. -/
inductive Err where
  | notFound
  | formatError
  | referentialIntegrity
  | lookupError
  | ioError
deriving DecidableEq

/-- The state of a `pandana.Network` after `build_network`: the node and
edge layers it indexes plus the POI category `"parks"` registered by
`set_pois` with its `maxdist` / `maxitems` bounds and POI coordinates. -/
structure Network where
  nodes : List Node
  edges : List Edge
  poiMaxdist : ℚ
  poiMaxitems : ℕ
  pois : List Pt
deriving DecidableEq

/-- The point of a node record. -/
def Node.toPt (n : Node) : Pt := ⟨n.x, n.y⟩

/-- Squared Euclidean distance, used for the nearest-node snap
(`network.get_node_ids` snaps to the straight-line nearest node; comparing
squared distances orders points exactly as comparing distances). -/
def sqDist (p q : Pt) : ℚ := (p.x - q.x) ^ 2 + (p.y - q.y) ^ 2

/-- Modelled from the spec: the engine's nearest-node snap
(`nearest_node(graph, x, y) → node id`, spec section 6).  Returns the
first node of the layer attaining the minimal straight-line distance;
fails with a LookupError when the graph has no nodes (spec section 4.4).
The tie-break among equidistant nodes is implementation-defined
(spec section 4.3); we fix "first in layer order". -/
def nearestNode (ns : List Node) (pt : Pt) : Except Err Node :=
  match ns with
  | [] => .error .lookupError
  | n :: rest =>
      .ok (rest.foldl (fun best m =>
        if sqDist m.toPt pt < sqDist best.toPt pt then m else best) n)

/-- The node id returned by the nearest-node snap. -/
def nearestNodeId (ns : List Node) (pt : Pt) : Except Err ℕ :=
  (nearestNode ns pt).map Node.osmid

/-- `build_network` (notebook cell 5): indexes the node and edge layers
defensively (`set_index` returns new frames), constructs the
`pandana.Network`, and registers the park centroids as the `"parks"` POI
category with `maxdist=1000`, `maxitems=25`.
Modelled from the spec: the engine's referential-integrity check — edge
endpoints must reference valid node identifiers, otherwise the build
fails with a ReferentialIntegrityError (spec section 4.2); this check is
inside the external `pandana.Network` constructor, not in the notebook. -/
def build_network (nodes : List Node) (edges : List Edge) (parks : List Pt) :
    Except Err Network :=
  if edges.all (fun e =>
      (nodes.any fun n => n.osmid == e.u) && (nodes.any fun n => n.osmid == e.v))
  then .ok { nodes := nodes, edges := edges,
             poiMaxdist := 1000, poiMaxitems := 25, pois := parks }
  else .error .referentialIntegrity

/-- Directed adjacency pairs of the routable graph; pandana edges are
two-way by default, so each edge contributes both directions with the
`length` column as weight. -/
def adjPairs (edges : List Edge) : List (ℕ × ℕ × ℚ) :=
  edges.foldr (fun e acc => (e.u, e.v, e.length) :: (e.v, e.u, e.length) :: acc) []

/-- Minimum of two optional distances (`none` = unreachable). -/
def optMin : Option ℚ → Option ℚ → Option ℚ
  | none, b => b
  | some a, none => some a
  | some a, some b => some (min a b)

/-- One relaxation round of all directed edges over a tentative
distance table. -/
def stepDist (prs : List (ℕ × ℕ × ℚ)) (f : ℕ → Option ℚ) : ℕ → Option ℚ :=
  fun n => prs.foldl
    (fun acc pr => if pr.2.1 = n then optMin acc ((f pr.1).map (· + pr.2.2)) else acc)
    (f n)

/-- Iterated relaxation. -/
def iterDist (g : (ℕ → Option ℚ) → (ℕ → Option ℚ)) :
    ℕ → (ℕ → Option ℚ) → (ℕ → Option ℚ)
  | 0, f => f
  | k + 1, f => iterDist g k (g f)

/-- Modelled from the spec: the engine's network (shortest-path) distance
between two graph nodes — Bellman–Ford relaxation run once per graph
node, `none` when unreachable. -/
def netdistOpt (net : Network) (a b : ℕ) : Option ℚ :=
  iterDist (stepDist (adjPairs net.edges)) net.nodes.length
    (fun n => if n = a then some 0 else none) b

/-- Whether node `p` lies within network distance `d` of node `nid`. -/
def netWithin (net : Network) (nid p : ℕ) (d : ℚ) : Bool :=
  match netdistOpt net nid p with
  | some q => decide (q ≤ d)
  | none => false

/-- Node ids the POI points snap to (pandana registers each POI at its
nearest graph node); POIs that cannot snap (empty graph) are dropped. -/
def parkNodeIds (net : Network) (pts : List Pt) : List ℕ :=
  pts.filterMap fun p => (nearestNodeId net.nodes p).toOption

/-- `network.aggregate(distance=d, type="count", name="parks")` at one
node: the number of registered park nodes within network distance `d`. -/
def aggCount (net : Network) (d : ℚ) (parkIds : List ℕ) (nid : ℕ) : ℕ :=
  parkIds.countP (fun p => netWithin net nid p d)

/-- The per-node count-aggregate table (`network.aggregate` returns one
value per graph node). -/
def aggregateTable (net : Network) (d : ℚ) (parkIds : List ℕ) : List (ℕ × ℕ) :=
  net.nodes.map fun nd => (nd.osmid, aggCount net d parkIds nd.osmid)

/-- Per-building assignment step of `accessibility_analysis`: snap the
building centroid to its nearest node (`network.get_node_ids`) and write
that node's count-aggregate into the `accessibility` column
(`node_ids.map(accessibility.to_dict())`; the dictionary is total over
graph nodes, so the lookup is function application).  A failed snap is a
per-building error state (spec section 4.4). -/
def assignScore (net : Network) (parkIds : List ℕ) (d : ℚ) (b : Building) :
    Except Err Building :=
  (nearestNodeId net.nodes b.centroid).map fun nid =>
    { b with accessibility := some (aggCount net d parkIds nid) }

/-- `accessibility_analysis` (notebook cell 7): build the network, snap
the park centroids onto it (`network.set(node_ids, name="parks")`),
aggregate counts within distance `d`, then score every building from its
nearest node.  The notebook's default distance is `d=800`. -/
def accessibility_analysis (nodes : List Node) (edges : List Edge)
    (parks : List Pt) (buildings : List Building) (d : ℚ := 800) :
    Except Err (List (Except Err Building)) :=
  (build_network nodes edges parks).map fun net =>
    buildings.map (assignScore net (parkNodeIds net parks) d)

/-- Insertion of a rational into a sorted list (ascending). -/
def insortQ (a : ℚ) : List ℚ → List ℚ
  | [] => [a]
  | b :: l => if a ≤ b then a :: b :: l else b :: insortQ a l

/-- Insertion sort on rationals (ascending), used to order candidate
POI distances. -/
def sortQ : List ℚ → List ℚ
  | [] => []
  | a :: l => insortQ a (sortQ l)

/-- Network distances from one node to every registered (snapped) POI. -/
def poiDists (net : Network) (nid : ℕ) : List ℚ :=
  (parkNodeIds net net.pois).filterMap (netdistOpt net nid)

/-- The POI distances stored for a node at registration time: sorted
ascending, cut at the registration radius `maxdist`, at most `maxitems`
of them (spec section 4.2: registration parameters bound query cost). -/
def storedPois (net : Network) (nid : ℕ) : List ℚ :=
  (((sortQ (poiDists net nid)).filter fun q => decide (q ≤ net.poiMaxdist)).take
    net.poiMaxitems)

/-- Modelled from the spec: the not-found sentinel of `nearest_pois` is a
maximum-distance marker — the query distance itself (spec sections 4.3
and 9). -/
def sentinel (d : ℚ) : ℚ := d

/-- One row of `network.nearest_pois(distance, category, num_pois)`: the
up-to-`k` nearest stored POI distances within `dist`, padded to exactly
`k` entries with the not-found sentinel. -/
def nearest_pois_row (net : Network) (dist : ℚ) (k : ℕ) (nid : ℕ) : List ℚ :=
  let found := ((storedPois net nid).filter fun q => decide (q ≤ dist)).take k
  found ++ List.replicate (k - found.length) (sentinel dist)

/-- The query distance threshold used by `proximity_analysis`
("find 3 closest parks within 800m"). -/
def prox_distance : ℚ := 800

/-- The number of POI slots requested by `proximity_analysis`
(`num_pois=3`). -/
def prox_num_pois : ℕ := 3

/-- `proximity_analysis` (notebook cell 6): build the network, then for
every graph node the distances of the 3 closest parks within 800m. -/
def proximity_analysis (nodes : List Node) (edges : List Edge) (parks : List Pt) :
    Except Err (List (ℕ × List ℚ)) :=
  (build_network nodes edges parks).map fun net =>
    net.nodes.map fun nd =>
      (nd.osmid, nearest_pois_row net prox_distance prox_num_pois nd.osmid)

/-! ## Mutation model

Python passes the GeoDataFrames by object reference.  `set_index(...)`
with the default `inplace=False` returns a fresh frame, so `build_network`
never touches the caller's layers; but cell 7's
`buildings["accessibility"] = node_ids.map(...)` is an in-place column
assignment on the very object the caller passed (and that same object is
returned).  The `*_after` definitions give the state of the caller's
layer objects after each call. -/

/-- The caller's nodes layer after `build_network`: unchanged, because
`nodes.set_index("osmid", drop=False)` returns a new frame. -/
def build_network_nodes_after (nodes : List Node) : List Node := nodes

/-- The caller's edges layer after `build_network`: unchanged, because
`edges.set_index(["u", "v"], drop=False)` returns a new frame. -/
def build_network_edges_after (edges : List Edge) : List Edge := edges

/-- The caller's buildings layer after `accessibility_analysis`: when the
call succeeds the in-place column assignment has replaced each building
that scored with its scored version (the returned frame is the argument
object); when the call raises before the assignment the layer is
unchanged. -/
def accessibility_buildings_after (nodes : List Node) (edges : List Edge)
    (parks : List Pt) (buildings : List Building) (d : ℚ := 800) :
    List Building :=
  match accessibility_analysis nodes edges parks buildings d with
  | .error _ => buildings
  | .ok rows => (buildings.zip rows).map fun pr =>
      match pr.2 with
      | .ok b => b
      | .error _ => pr.1

/-! ## Feature loading -/

/-- The parse result of one on-disk file: `none` when the file exists but
cannot be parsed as geometry, otherwise one of the four layer schemas. -/
inductive GeoData where
  | nodesD (ns : List Node)
  | edgesD (es : List Edge)
  | parksD (ps : List Pt)
  | buildingsD (bs : List Building)
deriving DecidableEq

/-- A read-only file system: paths mapped to parse results. -/
def FS : Type := List (String × Option GeoData)

/-- The file path read by `load_features`:
`<data_folder>/<city>/<features>_<city>.shp`. -/
def file_path (data_folder city features : String) : String :=
  data_folder ++ "/" ++ city ++ "/" ++ features ++ "_" ++ city ++ ".shp"

/-- Modelled from the spec: geopandas' `read_file` — fails with a
NotFound error if the file is absent, with a FormatError if the file
cannot be parsed as geometry, otherwise returns the geometry collection;
no side effects beyond the read (spec section 4.1). -/
def gpd_read_file (fs : FS) (p : String) : Except Err GeoData :=
  match List.lookup p fs with
  | none => .error .notFound
  | some none => .error .formatError
  | some (some g) => .ok g

/-- `load_features` (notebook cell 4): build the per-city file path and
read it. -/
def load_features (fs : FS) (data_folder city features : String) :
    Except Err GeoData :=
  gpd_read_file fs (file_path data_folder city features)

/-- Extract the nodes schema; a file of another schema cannot be used as
a nodes layer (FormatError). -/
def GeoData.asNodes : GeoData → Except Err (List Node)
  | .nodesD ns => .ok ns
  | _ => .error .formatError

/-- Extract the edges schema. -/
def GeoData.asEdges : GeoData → Except Err (List Edge)
  | .edgesD es => .ok es
  | _ => .error .formatError

/-- Extract the parks schema (centroids). -/
def GeoData.asParks : GeoData → Except Err (List Pt)
  | .parksD ps => .ok ps
  | _ => .error .formatError

/-- Extract the buildings schema. -/
def GeoData.asBuildings : GeoData → Except Err (List Building)
  | .buildingsD bs => .ok bs
  | _ => .error .formatError

/-! ## Task bodies over loaded layers

These are the function bodies that the dask graphs apply to the loaded
layers: a failed input propagates, in argument order. -/

/-- `proximity_analysis` applied to load results. -/
def proximity_task (n e p : Except Err GeoData) :
    Except Err (List (ℕ × List ℚ)) := do
  let ns ← (← n).asNodes
  let es ← (← e).asEdges
  let ps ← (← p).asParks
  proximity_analysis ns es ps

/-- `accessibility_analysis` applied to load results (notebook default
distance 800). -/
def accessibility_task (n e p b : Except Err GeoData) :
    Except Err (List (Except Err Building)) := do
  let ns ← (← n).asNodes
  let es ← (← e).asEdges
  let ps ← (← p).asParks
  let bs ← (← b).asBuildings
  accessibility_analysis ns es ps bs

instance {ε α : Type} [DecidableEq ε] [DecidableEq α] :
    DecidableEq (Except ε α)
  | .ok a, .ok b => decidable_of_iff (a = b) (by simp)
  | .ok _, .error _ => .isFalse (by simp)
  | .error _, .ok _ => .isFalse (by simp)
  | .error e, .error f => decidable_of_iff (e = f) (by simp)

/-- The figure written by `plot` (notebook cell 37): its output path
`<fig_folder>/<city>.png`, the parks layer it draws, and the scored
buildings it colours. -/
structure Figure where
  path : String
  parks : List Pt
  rows : List (Except Err Building)
deriving DecidableEq

/-- `plot` applied to its per-city inputs: renders the figure for a city
from its parks layer and its accessibility result. -/
def plot_task (city : String) (p : Except Err GeoData)
    (acc : Except Err (List (Except Err Building))) (fig_folder : String) :
    Except Err Figure := do
  let ps ← (← p).asParks
  let rows ← acc
  pure { path := fig_folder ++ "/" ++ city ++ ".png", parks := ps, rows := rows }

/-! ## Dask bag model (multi-city batch) -/

/-- Modelled from the spec: `db.map` of a 4-ary function over four bags —
elementwise application; each element is an `Except` value, so one
city's failure is captured in its own slot and cannot touch a sibling's
slot (spec sections 4.6 and 7: per-city failures are isolated). -/
def dbMap4 {α β γ δ ρ : Type} (f : α → β → γ → δ → ρ) :
    List α → List β → List γ → List δ → List ρ
  | a :: as, b :: bs, c :: cs, d :: ds => f a b c d :: dbMap4 f as bs cs ds
  | _, _, _, _ => []

/-- Modelled from the spec: `db.map` of a 3-ary function over three bags. -/
def dbMap3 {α β γ ρ : Type} (f : α → β → γ → ρ) :
    List α → List β → List γ → List ρ
  | a :: as, b :: bs, c :: cs => f a b c :: dbMap3 f as bs cs
  | _, _, _ => []

/-- `db.map(load_features, data_folder, cities_bag, layer)`: one load
result per city (notebook cell 32). -/
def load_bag (fs : FS) (data_folder layer : String) (cities : List String) :
    List (Except Err GeoData) :=
  cities.map fun c => load_features fs data_folder c layer

/-- `db.map(accessibility_analysis, nodes_bag, edges_bag, parks_bag,
buildings_bag)` (notebook cell 33). -/
def accessibility_bag (fs : FS) (data_folder : String) (cities : List String) :
    List (Except Err (List (Except Err Building))) :=
  dbMap4 accessibility_task
    (load_bag fs data_folder "nodes" cities)
    (load_bag fs data_folder "edges" cities)
    (load_bag fs data_folder "parks" cities)
    (load_bag fs data_folder "buildings" cities)

/-- `db.map(plot, cities_bag, parks_bag, accessibility_bag, fig_folder)`
followed by `dask.compute(res)` (notebook cells 38 and 39). -/
def plots_bag (fs : FS) (data_folder fig_folder : String)
    (cities : List String) : List (Except Err Figure) :=
  dbMap3 (fun c p a => plot_task c p a fig_folder)
    cities
    (load_bag fs data_folder "parks" cities)
    (accessibility_bag fs data_folder cities)

/-! ## Dask delayed model (single-city task graph) -/

/-- Modelled from the spec: a dask.delayed task graph — nodes are
function calls (`value` wraps a constant or a wrapped function,
`app` applies a deferred function to a deferred argument; the dependency
edges are the constructor arguments).  Constructing a `Plan` is pure and
side-effect free; only `Plan.compute` evaluates it. -/
inductive Plan : Type u → Type (u + 1) where
  | value : {α : Type u} → α → Plan α
  | app : {α β : Type u} → Plan (α → β) → Plan α → Plan β

/-- Modelled from the spec: `dask.compute` — topological evaluation of
the task graph. -/
def Plan.compute : {α : Type u} → Plan α → α
  | _, .value a => a
  | _, .app f x => f.compute x.compute

/-- `load_features_lazy(data_folder, city, layer)`: the deferred load
node of the task graph (notebook cells 18 and 19). -/
def load_features_plan (fs : FS) (data_folder city layer : String) :
    Plan (Except Err GeoData) :=
  .app (.app (.app (.value (load_features fs)) (.value data_folder))
    (.value city)) (.value layer)

/-- `proximity_analysis_lazy(nodes_p, edges_p, parks_p)` (notebook
cells 20 and 21): the lazily built proximity task graph of one city. -/
def proximity_plan (fs : FS) (data_folder city : String) :
    Plan (Except Err (List (ℕ × List ℚ))) :=
  .app (.app (.app (.value proximity_task)
      (load_features_plan fs data_folder city "nodes"))
    (load_features_plan fs data_folder city "edges"))
    (load_features_plan fs data_folder city "parks")

/-- `accessibility_analysis_lazy(nodes_p, edges_p, parks_p, buildings_p)`
(notebook cells 23 and 24): the lazily built accessibility task graph. -/
def accessibility_plan (fs : FS) (data_folder city : String) :
    Plan (Except Err (List (Except Err Building))) :=
  .app (.app (.app (.app (.value accessibility_task)
        (load_features_plan fs data_folder city "nodes"))
      (load_features_plan fs data_folder city "edges"))
    (load_features_plan fs data_folder city "parks"))
    (load_features_plan fs data_folder city "buildings")

/-- The eager serial proximity run of one city (notebook cells 13
and 14): load the layers, then analyze. -/
def proximity_serial (fs : FS) (data_folder city : String) :
    Except Err (List (ℕ × List ℚ)) :=
  proximity_task
    (load_features fs data_folder city "nodes")
    (load_features fs data_folder city "edges")
    (load_features fs data_folder city "parks")

/-- The eager serial accessibility run of one city (notebook cells 13
and 15). -/
def accessibility_serial (fs : FS) (data_folder city : String) :
    Except Err (List (Except Err Building)) :=
  accessibility_task
    (load_features fs data_folder city "nodes")
    (load_features fs data_folder city "edges")
    (load_features fs data_folder city "parks")
    (load_features fs data_folder city "buildings")

/-! ## Helper lemmas -/

theorem except_bind_ok {α β : Type} (a : α) (f : α → Except Err β) :
    (Except.ok a >>= f) = f a := rfl

theorem except_bind_err {α β : Type} (e : Err) (f : α → Except Err β) :
    ((Except.error e : Except Err α) >>= f) = .error e := rfl

theorem except_map_ok {α β : Type} (a : α) (f : α → β) :
    (Except.map f (.ok a) : Except Err β) = .ok (f a) := rfl

theorem except_map_err {α β : Type} (e : Err) (f : α → β) :
    (Except.map f (.error e) : Except Err β) = .error e := rfl

theorem mem_insortQ {x a : ℚ} : ∀ {l : List ℚ}, x ∈ insortQ a l → x = a ∨ x ∈ l
  | [], h => by simpa [insortQ] using h
  | b :: l, h => by
      by_cases hab : a ≤ b
      · simpa [insortQ, hab] using h
      · simp only [insortQ, if_neg hab, List.mem_cons] at h
        rcases h with h | h
        · exact Or.inr (List.mem_cons.2 (Or.inl h))
        · rcases mem_insortQ h with h | h
          · exact Or.inl h
          · exact Or.inr (List.mem_cons.2 (Or.inr h))

theorem mem_sortQ {x : ℚ} : ∀ {l : List ℚ}, x ∈ sortQ l → x ∈ l
  | [], h => by simp [sortQ] at h
  | a :: l, h => by
      rcases mem_insortQ (by simpa [sortQ] using h) with h | h
      · exact List.mem_cons.2 (Or.inl h)
      · exact List.mem_cons.2 (Or.inr (mem_sortQ h))

theorem mem_storedPois {net : Network} {nid : ℕ} {q : ℚ}
    (h : q ∈ storedPois net nid) : q ∈ poiDists net nid :=
  mem_sortQ (List.mem_filter.1 (List.mem_of_mem_take h)).1

theorem nearest_pois_row_length (net : Network) (dist : ℚ) (k : ℕ) (nid : ℕ) :
    (nearest_pois_row net dist k nid).length = k := by
  unfold nearest_pois_row
  simp only [List.length_append, List.length_replicate]
  have h : (((storedPois net nid).filter fun q => decide (q ≤ dist)).take k).length
      ≤ k := by
    simp [List.length_take]
  omega

theorem mem_nearest_pois_row {net : Network} {dist : ℚ} {k nid : ℕ} {q : ℚ}
    (h : q ∈ nearest_pois_row net dist k nid) :
    q ≤ dist ∨ q = sentinel dist := by
  unfold nearest_pois_row at h
  rcases List.mem_append.1 h with h | h
  · exact Or.inl (by
      have := (List.mem_filter.1 (List.mem_of_mem_take h)).2
      simpa using this)
  · exact Or.inr (List.eq_of_mem_replicate h)

theorem nearest_pois_row_all_sentinel {net : Network} {dist : ℚ} {k nid : ℕ}
    (h : ∀ q ∈ poiDists net nid, ¬ q ≤ dist) :
    nearest_pois_row net dist k nid = List.replicate k (sentinel dist) := by
  unfold nearest_pois_row
  have hnil : ((storedPois net nid).filter fun q => decide (q ≤ dist)) = [] := by
    rw [List.filter_eq_nil_iff]
    intro q hq
    simpa using h q (mem_storedPois hq)
  simp [hnil]

theorem foldl_nearest_mem (pt : Pt) :
    ∀ (rest : List Node) (n : Node),
      rest.foldl (fun best m =>
        if sqDist m.toPt pt < sqDist best.toPt pt then m else best) n ∈ n :: rest
  | [], n => by simp
  | m :: ms, n => by
      simp only [List.foldl_cons]
      by_cases h : sqDist m.toPt pt < sqDist n.toPt pt
      · rw [if_pos h]
        rcases List.mem_cons.1 (foldl_nearest_mem pt ms m) with h' | h'
        · exact List.mem_cons.2 (Or.inr (List.mem_cons.2 (Or.inl h')))
        · exact List.mem_cons.2 (Or.inr (List.mem_cons.2 (Or.inr h')))
      · rw [if_neg h]
        rcases List.mem_cons.1 (foldl_nearest_mem pt ms n) with h' | h'
        · exact List.mem_cons.2 (Or.inl h')
        · exact List.mem_cons.2 (Or.inr (List.mem_cons.2 (Or.inr h')))

theorem foldl_nearest_le (pt : Pt) :
    ∀ (rest : List Node) (n : Node), ∀ x ∈ n :: rest,
      sqDist (rest.foldl (fun best m =>
        if sqDist m.toPt pt < sqDist best.toPt pt then m else best) n).toPt pt
        ≤ sqDist x.toPt pt
  | [], n => by simp
  | m :: ms, n => by
      intro x hx
      simp only [List.foldl_cons]
      by_cases h : sqDist m.toPt pt < sqDist n.toPt pt
      · rw [if_pos h]
        rcases List.mem_cons.1 hx with h' | h'
        · rw [h']
          exact le_of_lt (lt_of_le_of_lt
            (foldl_nearest_le pt ms m m (List.mem_cons.2 (Or.inl rfl))) h)
        · rcases List.mem_cons.1 h' with h'' | h''
          · rw [h'']
            exact foldl_nearest_le pt ms m m (List.mem_cons.2 (Or.inl rfl))
          · exact foldl_nearest_le pt ms m x (List.mem_cons.2 (Or.inr h''))
      · rw [if_neg h]
        rcases List.mem_cons.1 hx with h' | h'
        · rw [h']
          exact foldl_nearest_le pt ms n n (List.mem_cons.2 (Or.inl rfl))
        · rcases List.mem_cons.1 h' with h'' | h''
          · rw [h'']
            exact le_trans
              (foldl_nearest_le pt ms n n (List.mem_cons.2 (Or.inl rfl)))
              (not_lt.1 h)
          · exact foldl_nearest_le pt ms n x (List.mem_cons.2 (Or.inr h''))

theorem nearestNode_mem {ns : List Node} {pt : Pt} {nd : Node}
    (h : nearestNode ns pt = .ok nd) : nd ∈ ns := by
  cases ns with
  | nil => exact absurd h (by simp [nearestNode])
  | cons n rest =>
      have : nd = rest.foldl (fun best m =>
          if sqDist m.toPt pt < sqDist best.toPt pt then m else best) n := by
        simpa [nearestNode] using h.symm
      rw [this]
      exact foldl_nearest_mem pt rest n

theorem nearestNode_min {ns : List Node} {pt : Pt} {nd : Node}
    (h : nearestNode ns pt = .ok nd) :
    ∀ m ∈ ns, sqDist nd.toPt pt ≤ sqDist m.toPt pt := by
  cases ns with
  | nil => exact absurd h (by simp [nearestNode])
  | cons n rest =>
      have hnd : nd = rest.foldl (fun best m =>
          if sqDist m.toPt pt < sqDist best.toPt pt then m else best) n := by
        simpa [nearestNode] using h.symm
      rw [hnd]
      exact foldl_nearest_le pt rest n

theorem accessibility_rows {nodes : List Node} {edges : List Edge}
    {parks : List Pt} {buildings : List Building} {d : ℚ} {net : Network}
    {rows : List (Except Err Building)}
    (hnet : build_network nodes edges parks = .ok net)
    (hrun : accessibility_analysis nodes edges parks buildings d = .ok rows) :
    rows = buildings.map (assignScore net (parkNodeIds net parks) d) := by
  unfold accessibility_analysis at hrun
  rw [hnet, except_map_ok] at hrun
  exact (Except.ok.inj hrun).symm

theorem proximity_rows {nodes : List Node} {edges : List Edge}
    {parks : List Pt} {net : Network} {t : List (ℕ × List ℚ)}
    (hnet : build_network nodes edges parks = .ok net)
    (hrun : proximity_analysis nodes edges parks = .ok t) :
    t = net.nodes.map fun nd =>
      (nd.osmid, nearest_pois_row net prox_distance prox_num_pois nd.osmid) := by
  unfold proximity_analysis at hrun
  rw [hnet, except_map_ok] at hrun
  exact (Except.ok.inj hrun).symm

/-! ## Claim theorems -/

/-- C1: for every building in the buildings layer, the accessibility
score assigned by `accessibility_analysis` is the per-node count-aggregate
value of that building's nearest graph node — the node returned by the
nearest-node snap of the building's centroid, which minimizes the
distance over all graph nodes — and never the value of any other node. -/
theorem accessibility_score_is_nearest_node_aggregate
    (nodes : List Node) (edges : List Edge) (parks : List Pt)
    (buildings : List Building) (d : ℚ) (net : Network)
    (rows : List (Except Err Building))
    (hnet : build_network nodes edges parks = .ok net)
    (hrun : accessibility_analysis nodes edges parks buildings d = .ok rows) :
    rows = buildings.map (assignScore net (parkNodeIds net parks) d)
    ∧ ∀ bd ∈ buildings, ∀ b',
        assignScore net (parkNodeIds net parks) d bd = .ok b' →
        ∃ nd, nearestNode net.nodes bd.centroid = .ok nd
          ∧ nd ∈ net.nodes
          ∧ (∀ m ∈ net.nodes,
              sqDist nd.toPt bd.centroid ≤ sqDist m.toPt bd.centroid)
          ∧ b'.accessibility
              = some (aggCount net d (parkNodeIds net parks) nd.osmid)
          ∧ (nd.osmid, aggCount net d (parkNodeIds net parks) nd.osmid)
              ∈ aggregateTable net d (parkNodeIds net parks) := by
  refine ⟨accessibility_rows hnet hrun, ?_⟩
  intro bd _ b' hb
  unfold assignScore nearestNodeId at hb
  cases hsnap : nearestNode net.nodes bd.centroid with
  | error e => rw [hsnap] at hb; exact absurd hb (by simp [Except.map])
  | ok nd =>
      rw [hsnap] at hb
      have hb' : b' = { bd with
          accessibility := some (aggCount net d (parkNodeIds net parks) nd.osmid) } := by
        simpa [Except.map] using hb.symm
      refine ⟨nd, rfl, nearestNode_mem hsnap, nearestNode_min hsnap, ?_, ?_⟩
      · rw [hb']
      · exact List.mem_map.2 ⟨nd, nearestNode_mem hsnap, rfl⟩

/-- C1 witness: a one-node city with one park and one building; the
building scores the aggregate of the unique (hence nearest) node. -/
theorem accessibility_score_witness :
    (build_network [⟨1, 0, 0⟩] [] [⟨0, 0⟩]
      = .ok ⟨[⟨1, 0, 0⟩], [], 1000, 25, [⟨0, 0⟩]⟩)
    ∧ (accessibility_analysis [⟨1, 0, 0⟩] [] [⟨0, 0⟩] [⟨⟨0, 0⟩, none⟩] 800
      = .ok [.ok ⟨⟨0, 0⟩, some 1⟩])
    ∧ [Except.ok (⟨⟨0, 0⟩, some 1⟩ : Building)]
      = [(⟨⟨0, 0⟩, none⟩ : Building)].map
          (assignScore ⟨[⟨1, 0, 0⟩], [], 1000, 25, [⟨0, 0⟩]⟩
            (parkNodeIds ⟨[⟨1, 0, 0⟩], [], 1000, 25, [⟨0, 0⟩]⟩ [⟨0, 0⟩]) 800) :=
  ⟨by decide, by decide,
    (accessibility_score_is_nearest_node_aggregate
      [⟨1, 0, 0⟩] [] [⟨0, 0⟩] [⟨⟨0, 0⟩, none⟩] 800
      ⟨[⟨1, 0, 0⟩], [], 1000, 25, [⟨0, 0⟩]⟩
      [.ok ⟨⟨0, 0⟩, some 1⟩] (by decide) (by decide)).1⟩

/-- C2: the proximity table has one row per graph node with exactly 3
distance entries (the requested slots, `num_pois=3`); every entry is
either a distance within the 800 query threshold or the not-found
sentinel; and a node with no POI within the search radius gets the
sentinel in every requested slot. -/
theorem proximity_table_shape
    (nodes : List Node) (edges : List Edge) (parks : List Pt)
    (net : Network) (t : List (ℕ × List ℚ))
    (hnet : build_network nodes edges parks = .ok net)
    (hrun : proximity_analysis nodes edges parks = .ok t) :
    t.length = net.nodes.length
    ∧ ∀ r ∈ t, r.2.length = prox_num_pois
        ∧ (∀ q ∈ r.2, q ≤ prox_distance ∨ q = sentinel prox_distance)
        ∧ ((∀ q ∈ poiDists net r.1, ¬ q ≤ prox_distance) →
            r.2 = List.replicate prox_num_pois (sentinel prox_distance)) := by
  have ht := proximity_rows hnet hrun
  subst ht
  refine ⟨List.length_map _ _, ?_⟩
  intro r hr
  obtain ⟨nd, _, hnd⟩ := List.mem_map.1 hr
  subst hnd
  exact ⟨nearest_pois_row_length net prox_distance prox_num_pois nd.osmid,
    fun q hq => mem_nearest_pois_row hq,
    fun hnone => nearest_pois_row_all_sentinel hnone⟩

/-- C2 witness: a one-node network whose only park is at the node
(distance 0) yields the row `[0, 800, 800]` — three slots, the first a
real distance, the others the sentinel. -/
theorem proximity_table_witness :
    (proximity_analysis [⟨1, 0, 0⟩] [] [⟨0, 0⟩]
      = .ok [(1, [0, 800, 800])])
    ∧ [((1 : ℕ), [(0 : ℚ), 800, 800])].length
        = (Network.mk [⟨1, 0, 0⟩] [] 1000 25 [⟨0, 0⟩]).nodes.length :=
  ⟨by decide,
    (proximity_table_shape [⟨1, 0, 0⟩] [] [⟨0, 0⟩]
      ⟨[⟨1, 0, 0⟩], [], 1000, 25, [⟨0, 0⟩]⟩
      [(1, [0, 800, 800])] (by decide) (by decide)).1⟩

/-- C4 counterexample: `accessibility_analysis` assigns the
`accessibility` column in place on the buildings frame it was passed
(`buildings["accessibility"] = node_ids.map(...)`), so after the call the
caller's buildings layer differs from what was passed in: the pipeline is
not mutation-free. -/
theorem accessibility_mutates_buildings_cex :
    accessibility_buildings_after [⟨1, 0, 0⟩] [] [⟨0, 0⟩] [⟨⟨0, 0⟩, none⟩] 800
      ≠ [⟨⟨0, 0⟩, none⟩] := by decide

/-- C4 amended: `build_network` only indexes defensively (`set_index`
returns fresh frames, the caller's node and edge layers are unchanged),
but `accessibility_analysis` mutates the buildings layer passed to it: a
successful run leaves the caller's buildings object holding the scored
rows rather than the original records. -/
theorem pipeline_mutation_profile
    (nodes : List Node) (edges : List Edge) (parks : List Pt)
    (buildings : List Building) (d : ℚ) (rows : List (Except Err Building))
    (hrun : accessibility_analysis nodes edges parks buildings d = .ok rows) :
    build_network_nodes_after nodes = nodes
    ∧ build_network_edges_after edges = edges
    ∧ accessibility_buildings_after nodes edges parks buildings d
        = (buildings.zip rows).map (fun pr =>
            match pr.2 with
            | .ok b => b
            | .error _ => pr.1) := by
  refine ⟨rfl, rfl, ?_⟩
  unfold accessibility_buildings_after
  rw [hrun]

/-- C4 amended witness: on the counterexample input the caller's
buildings layer after the call holds the scored building. -/
theorem pipeline_mutation_profile_witness :
    (accessibility_analysis [⟨1, 0, 0⟩] [] [⟨0, 0⟩] [⟨⟨0, 0⟩, none⟩] 800
      = .ok [.ok ⟨⟨0, 0⟩, some 1⟩])
    ∧ accessibility_buildings_after [⟨1, 0, 0⟩] [] [⟨0, 0⟩] [⟨⟨0, 0⟩, none⟩] 800
      = ([(⟨⟨0, 0⟩, none⟩ : Building)].zip
          [(Except.ok ⟨⟨0, 0⟩, some 1⟩ : Except Err Building)]).map
          (fun pr => match pr.2 with
            | Except.ok b => b
            | Except.error _ => pr.1) :=
  ⟨by decide,
    (pipeline_mutation_profile [⟨1, 0, 0⟩] [] [⟨0, 0⟩] [⟨⟨0, 0⟩, none⟩] 800
      [.ok ⟨⟨0, 0⟩, some 1⟩] (by decide)).2.2⟩

/-- C5: an edge layer containing an edge whose endpoint references a node
identifier absent from the node layer makes the network build fail with a
ReferentialIntegrityError, and both analyses then fail with that same
error before any proximity or accessibility query runs. -/
theorem referential_integrity_failure
    (nodes : List Node) (edges : List Edge) (parks : List Pt) (e : Edge)
    (he : e ∈ edges)
    (hmiss : (∀ n ∈ nodes, n.osmid ≠ e.u) ∨ (∀ n ∈ nodes, n.osmid ≠ e.v)) :
    build_network nodes edges parks = .error .referentialIntegrity
    ∧ proximity_analysis nodes edges parks = .error .referentialIntegrity
    ∧ ∀ (buildings : List Building) (d : ℚ),
        accessibility_analysis nodes edges parks buildings d
          = .error .referentialIntegrity := by
  have hcond : ¬ (edges.all (fun e =>
      (nodes.any fun n => n.osmid == e.u)
        && (nodes.any fun n => n.osmid == e.v)) = true) := by
    intro hall
    have hp := List.all_eq_true.1 hall e he
    rw [Bool.and_eq_true] at hp
    rcases hmiss with hm | hm
    · obtain ⟨n, hn, hbe⟩ := List.any_eq_true.1 hp.1
      exact hm n hn (by simpa using hbe)
    · obtain ⟨n, hn, hbe⟩ := List.any_eq_true.1 hp.2
      exact hm n hn (by simpa using hbe)
  have hbuild : build_network nodes edges parks
      = .error .referentialIntegrity := by
    unfold build_network
    rw [if_neg hcond]
  refine ⟨hbuild, ?_, ?_⟩
  · unfold proximity_analysis
    rw [hbuild, except_map_err]
  · intro buildings d
    unfold accessibility_analysis
    rw [hbuild, except_map_err]

/-- C5 witness: an edge whose target id 2 is not among the nodes makes
the build and both analyses fail with the ReferentialIntegrityError. -/
theorem referential_integrity_witness :
    ((⟨1, 2, 5⟩ : Edge) ∈ [(⟨1, 2, 5⟩ : Edge)])
    ∧ build_network [⟨1, 0, 0⟩] [⟨1, 2, 5⟩] [] = .error .referentialIntegrity
    ∧ proximity_analysis [⟨1, 0, 0⟩] [⟨1, 2, 5⟩] []
        = .error .referentialIntegrity :=
  have h := referential_integrity_failure [⟨1, 0, 0⟩] [⟨1, 2, 5⟩] [] ⟨1, 2, 5⟩
    (by decide) (Or.inr (by decide))
  ⟨by decide, h.1, h.2.1⟩

/-- C6: on a graph with no nodes every building's nearest-node snap fails
with a LookupError, and each building's result is computed independently
(the result list is an elementwise map over the buildings), so one
building's snap failure is a per-building error state and cannot abort
the computation for the other buildings. -/
theorem building_snap_failure_isolated
    (nodes : List Node) (edges : List Edge) (parks : List Pt)
    (buildings : List Building) (d : ℚ) (net : Network)
    (rows : List (Except Err Building))
    (hnet : build_network nodes edges parks = .ok net)
    (hrun : accessibility_analysis nodes edges parks buildings d = .ok rows) :
    rows = buildings.map (assignScore net (parkNodeIds net parks) d)
    ∧ (net.nodes = [] → ∀ r ∈ rows, r = .error .lookupError) := by
  refine ⟨accessibility_rows hnet hrun, ?_⟩
  intro hempty r hr
  rw [accessibility_rows hnet hrun] at hr
  obtain ⟨b, _, hb⟩ := List.mem_map.1 hr
  rw [← hb]
  unfold assignScore nearestNodeId nearestNode
  rw [hempty]
  rfl

/-- C6 witness: a city with no graph nodes — both buildings end in their
own LookupError state while the batch itself completes normally. -/
theorem building_snap_failure_witness :
    (accessibility_analysis [] [] [⟨0, 0⟩] [⟨⟨0, 0⟩, none⟩, ⟨⟨1, 1⟩, none⟩] 800
      = .ok [.error .lookupError, .error .lookupError])
    ∧ ∀ r ∈ [Except.error (α := Building) Err.lookupError,
        Except.error Err.lookupError], r = .error .lookupError :=
  ⟨by decide,
    (building_snap_failure_isolated [] [] [⟨0, 0⟩]
      [⟨⟨0, 0⟩, none⟩, ⟨⟨1, 1⟩, none⟩] 800 ⟨[], [], 1000, 25, [⟨0, 0⟩]⟩
      [.error .lookupError, .error .lookupError]
      (by decide) (by decide)).2 (by decide)⟩

/-- C3: in a two-city batch where city `a`'s edge file is corrupted (it
exists but does not parse), the batch records a FormatError in `a`'s slot
while city `b` still gets its full accessibility table and its figure:
one city's failure does not abort the sibling city's computation. -/
theorem batch_isolates_city_failure
    (fs : FS) (data_folder fig_folder a b : String)
    (nsA : List Node) (psA : List Pt)
    (hAn : List.lookup (file_path data_folder a "nodes") fs
      = some (some (.nodesD nsA)))
    (hAe : List.lookup (file_path data_folder a "edges") fs = some none)
    (hAp : List.lookup (file_path data_folder a "parks") fs
      = some (some (.parksD psA)))
    (nsB : List Node) (esB : List Edge) (psB : List Pt) (bsB : List Building)
    (hBn : List.lookup (file_path data_folder b "nodes") fs
      = some (some (.nodesD nsB)))
    (hBe : List.lookup (file_path data_folder b "edges") fs
      = some (some (.edgesD esB)))
    (hBp : List.lookup (file_path data_folder b "parks") fs
      = some (some (.parksD psB)))
    (hBb : List.lookup (file_path data_folder b "buildings") fs
      = some (some (.buildingsD bsB)))
    (netB : Network) (hnetB : build_network nsB esB psB = .ok netB) :
    accessibility_bag fs data_folder [a, b]
      = [.error .formatError,
         .ok (bsB.map (assignScore netB (parkNodeIds netB psB) 800))]
    ∧ plots_bag fs data_folder fig_folder [a, b]
      = [.error .formatError,
         .ok { path := fig_folder ++ "/" ++ b ++ ".png", parks := psB,
               rows := bsB.map (assignScore netB (parkNodeIds netB psB) 800) }] := by
  have hacc : accessibility_bag fs data_folder [a, b]
      = [.error .formatError,
         .ok (bsB.map (assignScore netB (parkNodeIds netB psB) 800))] := by
    simp only [accessibility_bag, load_bag, List.map, dbMap4,
      accessibility_task, load_features, gpd_read_file,
      hAn, hAe, hBn, hBe, hBp, hBb, except_bind_ok, except_bind_err,
      GeoData.asNodes, GeoData.asEdges, GeoData.asParks, GeoData.asBuildings,
      accessibility_analysis, hnetB, except_map_ok]
  refine ⟨hacc, ?_⟩
  unfold plots_bag
  rw [hacc]
  simp only [load_bag, List.map, dbMap3, plot_task,
    load_features, gpd_read_file, hAp, hBp, except_bind_ok, except_bind_err,
    GeoData.asParks]
  rfl

/-- C3 witness: a concrete two-city file system — city A's edge file is
present but unparseable, city B is well-formed; the batch yields a
FormatError slot for A and a complete table and figure for B. -/
theorem batch_isolation_witness :
    accessibility_bag
      [("d/A/nodes_A.shp", some (.nodesD [⟨1, 0, 0⟩])),
       ("d/A/edges_A.shp", none),
       ("d/A/parks_A.shp", some (.parksD [])),
       ("d/B/nodes_B.shp", some (.nodesD [⟨1, 0, 0⟩])),
       ("d/B/edges_B.shp", some (.edgesD [])),
       ("d/B/parks_B.shp", some (.parksD [⟨0, 0⟩])),
       ("d/B/buildings_B.shp", some (.buildingsD [⟨⟨0, 0⟩, none⟩]))]
      "d" ["A", "B"]
      = [.error .formatError, .ok [.ok ⟨⟨0, 0⟩, some 1⟩]] := by
  have h := (batch_isolates_city_failure
    [("d/A/nodes_A.shp", some (.nodesD [⟨1, 0, 0⟩])),
     ("d/A/edges_A.shp", none),
     ("d/A/parks_A.shp", some (.parksD [])),
     ("d/B/nodes_B.shp", some (.nodesD [⟨1, 0, 0⟩])),
     ("d/B/edges_B.shp", some (.edgesD [])),
     ("d/B/parks_B.shp", some (.parksD [⟨0, 0⟩])),
     ("d/B/buildings_B.shp", some (.buildingsD [⟨⟨0, 0⟩, none⟩]))]
    "d" "f" "A" "B" [⟨1, 0, 0⟩] []
    (by decide) (by decide) (by decide)
    [⟨1, 0, 0⟩] [] [⟨0, 0⟩] [⟨⟨0, 0⟩, none⟩]
    (by decide) (by decide) (by decide) (by decide)
    ⟨[⟨1, 0, 0⟩], [], 1000, 25, [⟨0, 0⟩]⟩ (by decide)).1
  rw [h]
  decide

/-- C7: computing the lazily built task graphs (graph construction is a
pure, separate step; `Plan.compute` is the explicit evaluation step)
returns exactly the results of running the same stages serially and
eagerly on the same inputs, for every city input. -/
theorem lazy_graph_matches_serial (fs : FS) (data_folder city : String) :
    Plan.compute (proximity_plan fs data_folder city)
      = proximity_serial fs data_folder city
    ∧ Plan.compute (accessibility_plan fs data_folder city)
      = accessibility_serial fs data_folder city :=
  ⟨rfl, rfl⟩

/-- C8: the pipeline stages are deterministic — two runs of
`proximity_analysis` and `accessibility_analysis` over equal node, edge,
parks, and buildings layers yield equal results (the embedding is pure:
there is no hidden state to diverge on). -/
theorem pipeline_deterministic
    (n₁ n₂ : List Node) (e₁ e₂ : List Edge) (p₁ p₂ : List Pt)
    (b₁ b₂ : List Building) (d₁ d₂ : ℚ)
    (hn : n₁ = n₂) (he : e₁ = e₂) (hp : p₁ = p₂) (hb : b₁ = b₂)
    (hd : d₁ = d₂) :
    proximity_analysis n₁ e₁ p₁ = proximity_analysis n₂ e₂ p₂
    ∧ accessibility_analysis n₁ e₁ p₁ b₁ d₁
        = accessibility_analysis n₂ e₂ p₂ b₂ d₂ := by
  subst hn he hp hb hd
  exact ⟨rfl, rfl⟩

/-- C8 witness: re-running on the same concrete layers gives the same
tables. -/
theorem pipeline_deterministic_witness :
    proximity_analysis [⟨1, 0, 0⟩] [] [⟨0, 0⟩]
      = proximity_analysis [⟨1, 0, 0⟩] [] [⟨0, 0⟩]
    ∧ accessibility_analysis [⟨1, 0, 0⟩] [] [⟨0, 0⟩] [⟨⟨0, 0⟩, none⟩] 800
      = accessibility_analysis [⟨1, 0, 0⟩] [] [⟨0, 0⟩] [⟨⟨0, 0⟩, none⟩] 800 :=
  pipeline_deterministic [⟨1, 0, 0⟩] [⟨1, 0, 0⟩] [] [] [⟨0, 0⟩] [⟨0, 0⟩]
    [⟨⟨0, 0⟩, none⟩] [⟨⟨0, 0⟩, none⟩] 800 800 rfl rfl rfl rfl rfl

/-- C9: `load_features` reads exactly the file at
`<base>/<city>/<layer>_<city>.shp` and returns its geometry collection;
it fails with the NotFound error when that path is absent from the file
system and with the FormatError when the file is present but cannot be
parsed as geometry (the function is pure, so there is no side effect
beyond the read). -/
theorem load_features_contract (fs : FS) (base city layer : String) :
    load_features fs base city layer
      = gpd_read_file fs (file_path base city layer)
    ∧ (List.lookup (file_path base city layer) fs = none →
        load_features fs base city layer = .error .notFound)
    ∧ (List.lookup (file_path base city layer) fs = some none →
        load_features fs base city layer = .error .formatError)
    ∧ ∀ g, List.lookup (file_path base city layer) fs = some (some g) →
        load_features fs base city layer = .ok g := by
  refine ⟨rfl, ?_, ?_, ?_⟩
  · intro h
    unfold load_features gpd_read_file
    rw [h]
  · intro h
    unfold load_features gpd_read_file
    rw [h]
  · intro g h
    unfold load_features gpd_read_file
    rw [h]

/-- C9 witness: on a one-file file system the parks layer loads from its
exact path, and a missing layer gives the NotFound error. -/
theorem load_features_contract_witness :
    load_features [("d/c/parks_c.shp", some (.parksD [⟨0, 0⟩]))] "d" "c" "parks"
      = .ok (.parksD [⟨0, 0⟩])
    ∧ load_features [("d/c/parks_c.shp", some (.parksD [⟨0, 0⟩]))] "d" "c" "nodes"
      = .error .notFound :=
  ⟨(load_features_contract [("d/c/parks_c.shp", some (.parksD [⟨0, 0⟩]))]
      "d" "c" "parks").2.2.2 (.parksD [⟨0, 0⟩]) (by decide),
    (load_features_contract [("d/c/parks_c.shp", some (.parksD [⟨0, 0⟩]))]
      "d" "c" "nodes").2.1 (by decide)⟩

/-- C10: the POI registration bounds are the constants `maxdist=1000` and
`maxitems=25` fixed inside `build_network`, and the nearest-POI query of
`proximity_analysis` (distance 800, 3 slots) stays within them: the query
never requests a larger radius or more POIs than were registered. -/
theorem query_within_registration_bounds
    (nodes : List Node) (edges : List Edge) (parks : List Pt) (net : Network)
    (hnet : build_network nodes edges parks = .ok net) :
    net.poiMaxdist = 1000 ∧ net.poiMaxitems = 25
    ∧ prox_distance ≤ net.poiMaxdist
    ∧ prox_num_pois ≤ net.poiMaxitems := by
  unfold build_network at hnet
  split at hnet
  · have := Except.ok.inj hnet
    rw [← this]
    refine ⟨rfl, rfl, ?_, ?_⟩
    · norm_num [prox_distance]
    · norm_num [prox_num_pois]
  · exact absurd hnet (by simp)

/-- C10 witness: the bounds hold for a concrete one-node build. -/
theorem query_bounds_witness :
    (Network.mk [⟨1, 0, 0⟩] [] 1000 25 [⟨0, 0⟩]).poiMaxdist = 1000
    ∧ (Network.mk [⟨1, 0, 0⟩] [] 1000 25 [⟨0, 0⟩]).poiMaxitems = 25
    ∧ prox_distance ≤ (Network.mk [⟨1, 0, 0⟩] [] 1000 25 [⟨0, 0⟩]).poiMaxdist
    ∧ prox_num_pois ≤ (Network.mk [⟨1, 0, 0⟩] [] 1000 25 [⟨0, 0⟩]).poiMaxitems :=
  query_within_registration_bounds [⟨1, 0, 0⟩] [] [⟨0, 0⟩]
    ⟨[⟨1, 0, 0⟩], [], 1000, 25, [⟨0, 0⟩]⟩ (by decide)

end ScalableGIS
